import Mathlib

/-!
Verification of the plasma-cell visualization core.

The definitions below are a shallow embedding of the TypeScript source:
* `useFadeLogic`, the ghost-mode opacity rule (src/components/Organelles.tsx,
  lines 102-109; an identical copy appears at lines 1295-1302);
* the selection state machine assembled from `useInteraction` (lines 79-99),
  `handleOrganelleSelect` (src/components/PlasmaCell.tsx) and the `App`
  writers (`setActiveFeature(null)` on close and on pointer miss);
* the secretion-path generator, the particle pools and the per-frame
  vesicle/antibody animators (lines 11-23, 994-1071, 1103-1177);
* the mitochondria placement generators (lines 809-833 and, for the
  simplified variant, lines 1523-1541);
* the per-organelle material parameters fed to the renderer.

JavaScript numbers are modelled as real numbers; `Math.random()` draws are
modelled as explicit parameters constrained to `[0, 1)`.
-/

namespace PlasmaCell

/-- Result record of the fade (ghost-mode) hook: the `opacity` and
`transparent` material parameters it returns. Opacities are exact
rationals here (the source manipulates the literals 0.1, 0.8, ... only by
multiplication, so the arithmetic is exact). -/
structure FadeResult where
  opacity : ℚ
  transparent : Bool
  deriving DecidableEq, Repr

/-- Shallow embedding of `useFadeLogic` (Organelles.tsx lines 102-109):
`isSelected = activeFeature === name`, `hasSelection = activeFeature !== null`;
no selection or own selection return the base pair, otherwise the ghosted
pair `(base * 0.1, true)`. -/
def useFadeLogic (name : String) (activeFeature : Option String)
    (baseOpacity : ℚ := 1) (baseTransparent : Bool := false) : FadeResult :=
  let isSelected := activeFeature = some name
  let hasSelection := activeFeature ≠ none
  if ¬hasSelection then ⟨baseOpacity, baseTransparent⟩
  else if isSelected then ⟨baseOpacity, baseTransparent⟩
  else ⟨baseOpacity * 0.1, true⟩

/-- The ten organelle names, in the order the components are instantiated in
`PlasmaCell.tsx`; each component passes exactly its literal name to
`useInteraction`, whose click handler calls `onSelect(name)`. -/
def organelleNames : List String :=
  ["Nucleus", "RER", "Golgi", "Mitochondria", "Lysosomes",
   "Centrioles", "Ribosomes", "Microtubules", "Vesicles", "Antibodies"]

/-- The events that can write the shared selection state: a pointer click on
one of the ten organelle components (`useInteraction`'s `onClick` calls
`onSelect` with the component's fixed name, routed through
`handleOrganelleSelect` to `setActiveFeature`), a pointer event missing
every mesh (`onPointerMissed` on the canvas), or the overlay close action
(`handleClose`). These are the only `setActiveFeature` call sites. -/
inductive SelectionEvent where
  | clickOrganelle (i : Fin 10)
  | pointerMissed
  | closePanel
  deriving DecidableEq, Repr

/-- One write to the shared selection state: a click stores the clicked
component's name, the other two events reset the state to `none`. The
previous state is overwritten unconditionally, as `setActiveFeature` does. -/
def selectionStep (_s : Option String) (e : SelectionEvent) : Option String :=
  match e with
  | .clickOrganelle i => some (organelleNames.get ⟨i.val, i.isLt⟩)
  | .pointerMissed => none
  | .closePanel => none

/-- The selection state reached from the initial state (`useState(null)`)
after a sequence of write events. -/
def selectionAfter (events : List SelectionEvent) : Option String :=
  events.foldl selectionStep none

/-! ### Geometry primitives

`THREE.Vector3` is modelled as a triple of real numbers with the operations
the animators use. `normalize` follows THREE's semantics exactly: it divides
by `length() || 1`, i.e. by 1 when the length is zero, so it is total and
never produces an undefined (NaN) component. -/

/-- A 3D vector (`THREE.Vector3`) over the reals. -/
@[ext] structure Vec3 where
  x : ℝ
  y : ℝ
  z : ℝ

instance : Add Vec3 := ⟨fun a b => ⟨a.x + b.x, a.y + b.y, a.z + b.z⟩⟩

instance : Sub Vec3 := ⟨fun a b => ⟨a.x - b.x, a.y - b.y, a.z - b.z⟩⟩

/-- `multiplyScalar`: componentwise scaling. -/
def Vec3.smul (c : ℝ) (v : Vec3) : Vec3 := ⟨c * v.x, c * v.y, c * v.z⟩

/-- `divideScalar`: componentwise division. -/
noncomputable def Vec3.divScalar (v : Vec3) (c : ℝ) : Vec3 := ⟨v.x / c, v.y / c, v.z / c⟩

/-- `crossVectors`: the cross product. -/
def Vec3.cross (a b : Vec3) : Vec3 :=
  ⟨a.y * b.z - a.z * b.y, a.z * b.x - a.x * b.z, a.x * b.y - a.y * b.x⟩

/-- `lengthSq`: squared Euclidean length. -/
def Vec3.lengthSq (v : Vec3) : ℝ := v.x * v.x + v.y * v.y + v.z * v.z

/-- `length`: Euclidean length. -/
noncomputable def Vec3.length (v : Vec3) : ℝ := Real.sqrt v.lengthSq

/-- `normalize`: THREE divides by `this.length() || 1`, so the zero vector is
left unchanged rather than producing NaN components. -/
noncomputable def Vec3.normalize (v : Vec3) : Vec3 :=
  v.divScalar (if v.length = 0 then 1 else v.length)

/-- `lerpVectors v1 v2 alpha = v1 + (v2 - v1) * alpha`. -/
noncomputable def lerpVectors (a b : Vec3) (alpha : ℝ) : Vec3 := a + Vec3.smul alpha (b - a)

/-- One secretion track `{start, end}` (the `end` field is renamed `pathEnd`
because `end` is a Lean keyword). -/
structure SecretionPath where
  start : Vec3
  pathEnd : Vec3

/-! ### The secretion-cycle animators

Both `useFrame` callbacks derive everything from the elapsed clock time `t`
and the particle's fixed `(pathIndex, offset)`.  `%` on nonnegative
JavaScript numbers (the elapsed time and the offsets are nonnegative and the
divisor is the positive constant 6.0) agrees with the floor-based remainder
used here. -/

/-- The JavaScript `%` remainder, `a - b * ⌊a / b⌋`; this agrees with JS for
a nonnegative dividend and positive divisor, the only case the animators
use. -/
noncomputable def jsMod (a b : ℝ) : ℝ := a - b * ⌊a / b⌋

/-- `cycleDuration = 6.0`. -/
noncomputable def cycleDuration : ℝ := 6

/-- `transitionPoint = 0.75`: raw progress below it is the vesicle phase,
at or above it the antibody phase. -/
noncomputable def transitionPoint : ℝ := 0.75

/-- `rawProgress = ((t + offset) % cycleDuration) / cycleDuration`. -/
noncomputable def rawProgress (t offset : ℝ) : ℝ :=
  jsMod (t + offset) cycleDuration / cycleDuration

/-- The vesicle-phase scale as a function of the stage progress
(`let s = 0.25; if (sp < 0.1) s = sp * 2.5; if (sp > 0.9) s = (1 - sp) * 2.5`,
written with the second assignment outermost because it is executed last). -/
noncomputable def vesicleStageScale (sp : ℝ) : ℝ :=
  if sp > 0.9 then (1 - sp) * 2.5 else if sp < 0.1 then sp * 2.5 else 0.25

/-- The antibody-phase scale as a function of the stage progress
(`let s = 0.25; if (sp < 0.1) s = sp * 2.5; if (sp > 0.8) s = (1 - sp) * 1.25`). -/
noncomputable def antibodyStageScale (sp : ℝ) : ℝ :=
  if sp > 0.8 then (1 - sp) * 1.25 else if sp < 0.1 then sp * 2.5 else 0.25

/-- The normalized travel direction of a path:
`new THREE.Vector3().subVectors(path.end, path.start).normalize()`. -/
noncomputable def vesicleDir (path : SecretionPath) : Vec3 :=
  (path.pathEnd - path.start).normalize

/-- The world up axis used by the vesicle animator. -/
def worldUp : Vec3 := ⟨0, 1, 0⟩

/-- The side vector: `crossVectors(dir, worldUp).normalize()`, replaced by
the fallback axis `(1, 0, 0)` when its squared length is zero (the travel
direction is parallel to the up axis). -/
noncomputable def vesiclePerp (path : SecretionPath) : Vec3 :=
  if ((vesicleDir path).cross worldUp).normalize.lengthSq = 0 then ⟨1, 0, 0⟩
  else ((vesicleDir path).cross worldUp).normalize

/-- The local up vector relative to the tube: `crossVectors(perp, dir).normalize()`. -/
noncomputable def vesicleLocalUp (path : SecretionPath) : Vec3 :=
  ((vesiclePerp path).cross (vesicleDir path)).normalize

/-- The displayed vesicle position: the interpolated point on the track plus
the perpendicular offset `(s + 0.03) * localUp` that sits the vesicle on top
of the microtubule. -/
noncomputable def vesicleOffsetPos (path : SecretionPath) (sp s : ℝ) : Vec3 :=
  lerpVectors path.start path.pathEnd sp + Vec3.smul (s + 0.03) (vesicleLocalUp path)

/-- The observable per-frame state of one instanced particle: its scale and,
while it is in its active phase, its position. In the hidden branch the code
only zeroes the scale (the stale transform is invisible at scale 0), so the
position is modelled as `none` there. -/
structure PState where
  scale : ℝ
  position : Option Vec3

/-- One frame of the `Vesicles` animator for one particle (Organelles.tsx
lines 1017-1067): active (vesicle) phase while `rawProgress <
transitionPoint`, hidden otherwise. -/
noncomputable def vesicleState (path : SecretionPath) (offset t : ℝ) : PState :=
  if rawProgress t offset < transitionPoint then
    ⟨vesicleStageScale (rawProgress t offset / transitionPoint),
     some (vesicleOffsetPos path (rawProgress t offset / transitionPoint)
            (vesicleStageScale (rawProgress t offset / transitionPoint)))⟩
  else ⟨0, none⟩

/-- One frame of the `AntibodyStream` animator for particle index `i`
(Organelles.tsx lines 1126-1174): active (antibody) phase while
`rawProgress ≥ transitionPoint`; the particle continues outward from
`path.end` by `stageProgress * 6.0` along the travel direction, plus a
sinusoidal drift of amplitude `0.2 * stageProgress` on the y and z
coordinates driven by the raw elapsed time `t * 5 + i`. -/
noncomputable def antibodyState (path : SecretionPath) (offset : ℝ) (i : ℕ) (t : ℝ) : PState :=
  if rawProgress t offset ≥ transitionPoint then
    ⟨antibodyStageScale ((rawProgress t offset - transitionPoint) / (1 - transitionPoint)),
     some
       ⟨(path.pathEnd + Vec3.smul (((rawProgress t offset - transitionPoint) / (1 - transitionPoint)) * 6.0) (vesicleDir path)).x,
        (path.pathEnd + Vec3.smul (((rawProgress t offset - transitionPoint) / (1 - transitionPoint)) * 6.0) (vesicleDir path)).y
          + Real.sin (t * 5 + i) * 0.2 * ((rawProgress t offset - transitionPoint) / (1 - transitionPoint)),
        (path.pathEnd + Vec3.smul (((rawProgress t offset - transitionPoint) / (1 - transitionPoint)) * 6.0) (vesicleDir path)).z
          + Real.cos (t * 5 + i) * 0.2 * ((rawProgress t offset - transitionPoint) / (1 - transitionPoint))⟩⟩
  else ⟨0, none⟩

/-- A representative output of the `SECRETION_PATHS` generator: index 0 with
all three draws equal to 0 gives `theta = 0`, `radius = 2`, hence
`start = (1.8, 0, 0)` and `end = (-8.5, 2, 0)`. -/
noncomputable def examplePath : SecretionPath := ⟨⟨1.8, 0, 0⟩, ⟨-8.5, 2, 0⟩⟩

/-- C1: for every organelle name, base opacity and base transparency, the
fade logic returns the base pair when the selection is `none`, the base pair
when the selection equals the organelle's own name, and the ghosted pair
`(base * 0.1, transparent = true)` for any other selection string. -/
theorem useFadeLogic_cases (name : String) (S : Option String) (B : ℚ) (T : Bool) :
    (S = none → useFadeLogic name S B T = ⟨B, T⟩) ∧
    (S = some name → useFadeLogic name S B T = ⟨B, T⟩) ∧
    (∀ s : String, S = some s → s ≠ name → useFadeLogic name S B T = ⟨B * 0.1, true⟩) := by
  refine ⟨fun h => ?_, fun h => ?_, fun s hS hne => ?_⟩
  · subst h; simp [useFadeLogic]
  · subst h; simp [useFadeLogic]
  · subst hS
    simp only [useFadeLogic]
    rw [if_neg, if_neg]
    · simpa [eq_comm] using hne
    · simp

/-- Witness for `useFadeLogic_cases`: evaluating the three cases at concrete
inputs. -/
theorem useFadeLogic_cases_witness :
    useFadeLogic "Nucleus" none 1 false = ⟨1, false⟩ ∧
    useFadeLogic "Nucleus" (some "Nucleus") 1 false = ⟨1, false⟩ ∧
    useFadeLogic "Nucleus" (some "Golgi") 1 false = ⟨1 * 0.1, true⟩ :=
  ⟨(useFadeLogic_cases "Nucleus" none 1 false).1 rfl,
   (useFadeLogic_cases "Nucleus" (some "Nucleus") 1 false).2.1 rfl,
   (useFadeLogic_cases "Nucleus" (some "Golgi") 1 false).2.2 "Golgi" rfl (by decide)⟩

/-! ### Helper lemmas for the animation theorems -/

lemma jsMod_add_period (x : ℝ) : jsMod (x + 6) 6 = jsMod x 6 := by
  unfold jsMod
  have h : (x + 6) / 6 = x / 6 + 1 := by field_simp
  rw [h, Int.floor_add_one]
  push_cast
  ring

lemma rawProgress_period (t offset : ℝ) :
    rawProgress (t + 6) offset = rawProgress t offset := by
  unfold rawProgress cycleDuration
  rw [show t + 6 + offset = t + offset + 6 by ring, jsMod_add_period]

lemma jsMod_small {x : ℝ} (h0 : 0 ≤ x) (h1 : x < 6) : jsMod x 6 = x := by
  unfold jsMod
  have : ⌊x / 6⌋ = 0 := by
    rw [Int.floor_eq_zero_iff, Set.mem_Ico]
    constructor <;> [positivity; linarith]
  rw [this]
  push_cast
  ring

lemma sin_thirty_ne_zero : Real.sin 30 ≠ 0 := by
  intro h
  rw [Real.sin_eq_zero_iff] at h
  obtain ⟨n, hn⟩ := h
  have hn0 : n ≠ 0 := by
    rintro rfl
    norm_num at hn
  have hπ : Real.pi = ((30 / n : ℚ) : ℝ) := by
    have hcast : ((n : ℚ) : ℝ) = (n : ℝ) := by push_cast; ring
    have hne : ((n : ℚ) : ℝ) ≠ 0 := by
      rw [hcast]
      exact_mod_cast hn0
    push_cast
    rw [eq_div_iff (by exact_mod_cast hn0)]
    linarith [hn]
  exact Rat.not_irrational (30 / n) (hπ ▸ irrational_pi)

/-- C2 counterexample: the antibody particle with `offset = 4.8` on the
representative path, at particle index `i = 0`, has different positions at
elapsed times `t = 0` and `t = 6` (one full cycle apart): its drift term
`sin(t * 5 + i) * 0.2 * stageProgress` depends on the raw elapsed time, not
on the cycle phase, so the position is not 6.0-periodic. -/
theorem antibody_position_not_periodic :
    (antibodyState examplePath 4.8 0 6).position ≠ (antibodyState examplePath 4.8 0 0).position := by
  have hr0 : rawProgress 0 4.8 = 0.8 := by
    unfold rawProgress cycleDuration
    rw [show (0 : ℝ) + 4.8 = 4.8 by norm_num, jsMod_small (by norm_num) (by norm_num)]
    norm_num
  have hr6 : rawProgress 6 4.8 = 0.8 := by
    rw [show (6 : ℝ) = 0 + 6 by norm_num, rawProgress_period, hr0]
  unfold antibodyState
  rw [hr0, hr6, if_pos (by unfold transitionPoint; norm_num), if_pos (by unfold transitionPoint; norm_num)]
  intro h
  have hy := congrArg Vec3.y (Option.some.inj h)
  simp only at hy
  have hsin : Real.sin (6 * 5 + (0 : ℕ)) * 0.2 * ((0.8 - transitionPoint) / (1 - transitionPoint)) =
      Real.sin (0 * 5 + (0 : ℕ)) * 0.2 * ((0.8 - transitionPoint) / (1 - transitionPoint)) := by
    linarith [hy]
  rw [show ((6 : ℝ) * 5 + (0 : ℕ)) = 30 by push_cast; ring,
      show ((0 : ℝ) * 5 + (0 : ℕ)) = 0 by push_cast; ring, Real.sin_zero] at hsin
  have : Real.sin 30 = 0 := by
    have hsp : ((0.8 - transitionPoint) / (1 - transitionPoint) : ℝ) = 0.2 := by
      unfold transitionPoint; norm_num
    rw [hsp] at hsin
    linarith
  exact sin_thirty_ne_zero this

/-- C2 amended: over one full cycle (`t` to `t + 6.0`), every particle's
scale and visibility are identical in both pools, and the vesicle-pool
particle's position (and hence its full observable state) is identical; only
the antibody-phase position escapes periodicity, through its elapsed-time
drift term (see `antibody_position_not_periodic`). -/
theorem secretion_cycle_periodic (path : SecretionPath) (offset t : ℝ) (i : ℕ)
    (ht : 0 ≤ t) (hoff : 0 ≤ offset) :
    vesicleState path offset (t + 6) = vesicleState path offset t ∧
    (antibodyState path offset i (t + 6)).scale = (antibodyState path offset i t).scale ∧
    ((antibodyState path offset i (t + 6)).position = none ↔
      (antibodyState path offset i t).position = none) := by
  have hraw := rawProgress_period t offset
  refine ⟨?_, ?_, ?_⟩
  · unfold vesicleState
    rw [hraw]
  · unfold antibodyState
    rw [hraw]
    by_cases h : rawProgress t offset ≥ transitionPoint
    · rw [if_pos h, if_pos h]
    · rw [if_neg h, if_neg h]
  · unfold antibodyState
    rw [hraw]
    by_cases h : rawProgress t offset ≥ transitionPoint
    · rw [if_pos h, if_pos h]
      simp
    · rw [if_neg h, if_neg h]

/-- Witness for `secretion_cycle_periodic` at `t = 2`, `offset = 1.5`. -/
theorem secretion_cycle_periodic_witness :
    vesicleState examplePath 1.5 (2 + 6) = vesicleState examplePath 1.5 2 :=
  (secretion_cycle_periodic examplePath 1.5 2 0 (by norm_num) (by norm_num)).1

/-- C3: a vesicle-pool particle has positive scale only while
`rawProgress < 0.75` and an antibody-pool particle only while
`rawProgress ≥ 0.75`; at `rawProgress` exactly `0.75` the vesicle branch is
not taken and its scale is forced to 0; and at no raw progress are both
representations at full scale `0.25` simultaneously. -/
theorem vesicle_antibody_handoff (path : SecretionPath) (offset : ℝ) (i : ℕ) (t : ℝ) :
    ((vesicleState path offset t).scale > 0 → rawProgress t offset < transitionPoint) ∧
    ((antibodyState path offset i t).scale > 0 → rawProgress t offset ≥ transitionPoint) ∧
    (rawProgress t offset = transitionPoint → (vesicleState path offset t).scale = 0) ∧
    ¬((vesicleState path offset t).scale = 0.25 ∧ (antibodyState path offset i t).scale = 0.25) := by
  refine ⟨?_, ?_, ?_, ?_⟩
  · intro h
    by_contra hge
    unfold vesicleState at h
    rw [if_neg hge] at h
    exact lt_irrefl 0 h
  · intro h
    by_contra hlt
    unfold antibodyState at h
    rw [if_neg hlt] at h
    exact lt_irrefl 0 h
  · intro h
    unfold vesicleState
    rw [if_neg (by rw [h]; exact lt_irrefl _)]
  · rintro ⟨hv, ha⟩
    by_cases h : rawProgress t offset < transitionPoint
    · unfold antibodyState at ha
      rw [if_neg (not_le.mpr h)] at ha
      norm_num at ha
    · unfold vesicleState at hv
      rw [if_neg h] at hv
      norm_num at hv

/-- Witness for `vesicle_antibody_handoff`: the particle with `offset = 1.5`
at `t = 0` has raw progress `0.25`, vesicle scale `0.25 > 0`, and the first
conjunct places it in the vesicle phase. -/
theorem vesicle_antibody_handoff_witness :
    rawProgress 0 1.5 < transitionPoint ∧
    (rawProgress 0 4.8 ≥ transitionPoint) ∧
    (vesicleState examplePath 4.5 0).scale = 0 ∧
    ¬((vesicleState examplePath 1.5 0).scale = 0.25 ∧
      (antibodyState examplePath 1.5 0 0).scale = 0.25) := by
  have hr : rawProgress 0 1.5 = 0.25 := by
    unfold rawProgress cycleDuration
    rw [show (0 : ℝ) + 1.5 = 1.5 by norm_num, jsMod_small (by norm_num) (by norm_num)]
    norm_num
  have hr48 : rawProgress 0 4.8 = 0.8 := by
    unfold rawProgress cycleDuration
    rw [show (0 : ℝ) + 4.8 = 4.8 by norm_num, jsMod_small (by norm_num) (by norm_num)]
    norm_num
  have hr45 : rawProgress 0 4.5 = 0.75 := by
    unfold rawProgress cycleDuration
    rw [show (0 : ℝ) + 4.5 = 4.5 by norm_num, jsMod_small (by norm_num) (by norm_num)]
    norm_num
  have hscale : (vesicleState examplePath 1.5 0).scale > 0 := by
    unfold vesicleState
    rw [hr, if_pos (by unfold transitionPoint; norm_num)]
    show vesicleStageScale (0.25 / transitionPoint) > 0
    unfold vesicleStageScale transitionPoint
    norm_num
  have hascale : (antibodyState examplePath 4.8 0 0).scale > 0 := by
    unfold antibodyState
    rw [hr48, if_pos (by unfold transitionPoint; norm_num)]
    show antibodyStageScale ((0.8 - transitionPoint) / (1 - transitionPoint)) > 0
    unfold antibodyStageScale transitionPoint
    norm_num
  exact ⟨(vesicle_antibody_handoff examplePath 1.5 0 0).1 hscale,
         (vesicle_antibody_handoff examplePath 4.8 0 0).2.1 hascale,
         (vesicle_antibody_handoff examplePath 4.5 0 0).2.2.1 hr45,
         (vesicle_antibody_handoff examplePath 1.5 0 0).2.2.2⟩

/-- C4: during the vesicle phase the visible scale is `sp * 2.5` on the
first 10% of the stage progress, `0.25` over the middle 80% (boundary points
included), and `(1 - sp) * 2.5` on the final 10%. -/
theorem vesicle_scale_ramp (sp : ℝ) (h0 : 0 ≤ sp) (h1 : sp < 1) :
    (sp < 0.1 → vesicleStageScale sp = sp * 2.5) ∧
    (0.1 ≤ sp → sp ≤ 0.9 → vesicleStageScale sp = 0.25) ∧
    (sp > 0.9 → vesicleStageScale sp = (1 - sp) * 2.5) := by
  unfold vesicleStageScale
  refine ⟨fun h => ?_, fun ha hb => ?_, fun h => ?_⟩
  · rw [if_neg (by linarith), if_pos h]
  · rw [if_neg (by linarith), if_neg (by linarith)]
  · rw [if_pos h]

/-- Witness for `vesicle_scale_ramp`: the three cases at `sp = 0.05`,
`sp = 0.5` and `sp = 0.95`. -/
theorem vesicle_scale_ramp_witness :
    vesicleStageScale 0.05 = 0.05 * 2.5 ∧
    vesicleStageScale 0.5 = 0.25 ∧
    vesicleStageScale 0.95 = (1 - 0.95) * 2.5 :=
  ⟨(vesicle_scale_ramp 0.05 (by norm_num) (by norm_num)).1 (by norm_num),
   (vesicle_scale_ramp 0.5 (by norm_num) (by norm_num)).2.1 (by norm_num) (by norm_num),
   (vesicle_scale_ramp 0.95 (by norm_num) (by norm_num)).2.2 (by norm_num)⟩

lemma zero_vec_normalize : (⟨0, 0, 0⟩ : Vec3).normalize = ⟨0, 0, 0⟩ := by
  unfold Vec3.normalize Vec3.length Vec3.lengthSq Vec3.divScalar
  norm_num

/-- C8: when the travel direction is exactly parallel to the world up axis
(the cross product with `(0, 1, 0)` is the zero vector), the animator
substitutes the fixed fallback axis `(1, 0, 0)` for the perpendicular
vector, and for every stage progress and scale the offset position is the
well-defined vector obtained from the fallback axis: every arithmetic step
(`normalize` divides by `length() || 1`) is total, so no component is ever
NaN. -/
theorem perpendicular_fallback (path : SecretionPath)
    (h : (vesicleDir path).cross worldUp = ⟨0, 0, 0⟩) :
    vesiclePerp path = ⟨1, 0, 0⟩ ∧
    ∀ sp s : ℝ, vesicleOffsetPos path sp s =
      lerpVectors path.start path.pathEnd sp +
        Vec3.smul (s + 0.03) ((Vec3.cross ⟨1, 0, 0⟩ (vesicleDir path)).normalize) := by
  have hperp : vesiclePerp path = ⟨1, 0, 0⟩ := by
    unfold vesiclePerp
    rw [h, zero_vec_normalize, if_pos (by unfold Vec3.lengthSq; norm_num)]
  refine ⟨hperp, fun sp s => ?_⟩
  unfold vesicleOffsetPos vesicleLocalUp
  rw [hperp]

/-- A path whose travel direction is exactly the world up axis, exercising
the degenerate branch of the perpendicular computation. -/
noncomputable def upwardPath : SecretionPath := ⟨⟨0, 0, 0⟩, ⟨0, 2, 0⟩⟩

/-- Witness for `perpendicular_fallback`: on `upwardPath` the direction is
`(0, 1, 0)`, its cross product with the up axis vanishes, and the fallback
axis is substituted. -/
theorem perpendicular_fallback_witness : vesiclePerp upwardPath = ⟨1, 0, 0⟩ := by
  have hdir : vesicleDir upwardPath = ⟨0, 1, 0⟩ := by
    unfold vesicleDir upwardPath Vec3.normalize Vec3.length Vec3.lengthSq Vec3.divScalar
    have hsub : ((⟨0, 2, 0⟩ : Vec3) - ⟨0, 0, 0⟩) = (⟨0, 2, 0⟩ : Vec3) := by
      show Vec3.mk _ _ _ = _
      norm_num
    rw [hsub]
    have h4 : (0 : ℝ) * 0 + 2 * 2 + 0 * 0 = 2 ^ 2 := by norm_num
    rw [show ((⟨0, 2, 0⟩ : Vec3).x * (⟨0, 2, 0⟩ : Vec3).x + (⟨0, 2, 0⟩ : Vec3).y * (⟨0, 2, 0⟩ : Vec3).y + (⟨0, 2, 0⟩ : Vec3).z * (⟨0, 2, 0⟩ : Vec3).z) = 2 ^ 2 by norm_num,
       Real.sqrt_sq (by norm_num : (0 : ℝ) ≤ 2)]
    norm_num
  exact (perpendicular_fallback upwardPath (by rw [hdir]; unfold Vec3.cross worldUp; norm_num)).1

/-! ### Procedural generators

`Math.random()` draws are modelled as explicit parameters: a function giving
the value of each draw (indexed by call position), constrained to `[0, 1)`
in the theorems. -/

/-- Shallow embedding of `SECRETION_PATHS` (Organelles.tsx lines 11-23):
8 entries; entry `i` consumes three draws (the angular jitter, the end
radius and the end-x jitter, in call order); the start is the fixed
Golgi-region point `(1.8, 0, 0)` and the end is spread on the negative-x
tail at `x = -8.5 + random()`. -/
noncomputable def secretionPaths (rand : ℕ → ℝ) : List SecretionPath :=
  (List.range 8).map (fun i =>
    ⟨⟨1.8, 0, 0⟩,
     ⟨-8.5 + rand (3 * i + 2),
      Real.cos (Real.pi * 2 * i / 8 + rand (3 * i) * 0.5) * (2.0 + rand (3 * i + 1) * 1.5),
      Real.sin (Real.pi * 2 * i / 8 + rand (3 * i) * 0.5) * (2.0 + rand (3 * i + 1) * 1.5)⟩⟩)

/-- C5: for every outcome of the random draws, the generated secretion path
set has exactly 8 entries, every entry starts at the fixed Golgi-region
coordinate `(1.8, 0, 0)`, and every entry's end point has
`x ∈ [-8.5, -7.5]`, in particular strictly negative. -/
theorem secretionPaths_spec (rand : ℕ → ℝ) (h : ∀ n, 0 ≤ rand n ∧ rand n < 1) :
    (secretionPaths rand).length = 8 ∧
    ∀ p ∈ secretionPaths rand,
      p.start = ⟨1.8, 0, 0⟩ ∧
      -8.5 ≤ p.pathEnd.x ∧ p.pathEnd.x ≤ -7.5 ∧ p.pathEnd.x < 0 := by
  constructor
  · simp [secretionPaths]
  · intro p hp
    simp only [secretionPaths, List.mem_map, List.mem_range] at hp
    obtain ⟨i, _, rfl⟩ := hp
    obtain ⟨hlo, hhi⟩ := h (3 * i + 2)
    exact ⟨rfl, by simp; linarith, by simp; linarith, by simp; linarith⟩

/-- Witness for `secretionPaths_spec` with all draws equal to `1/2`. -/
theorem secretionPaths_spec_witness :
    (secretionPaths (fun _ => 1 / 2)).length = 8 :=
  (secretionPaths_spec (fun _ => 1 / 2) (fun _ => by norm_num)).1

/-- One pooled particle: the index of its assigned path and its fixed random
phase offset. -/
structure Particle where
  pathIndex : ℕ
  offset : ℝ

/-- The `Vesicles` particle pool (Organelles.tsx lines 994-1009):
`count = SECRETION_PATHS.length * 2` particles; particle `i` rides path
`i % SECRETION_PATHS.length` with phase offset `random() * 10.0`. -/
noncomputable def vesicleParticles (n : ℕ) (rand : ℕ → ℝ) : List Particle :=
  (List.range (n * 2)).map (fun i => ⟨i % n, rand i * 10.0⟩)

/-- The `AntibodyStream` particle pool (Organelles.tsx lines 1103-1118):
`count = SECRETION_PATHS.length * 8` particles, built the same way. -/
noncomputable def antibodyParticles (n : ℕ) (rand : ℕ → ℝ) : List Particle :=
  (List.range (n * 8)).map (fun i => ⟨i % n, rand i * 10.0⟩)

/-- C6: for every path-set length `n` and all random draws, the vesicle pool
has exactly `2 × n` particles and the antibody pool exactly `8 × n`; the
particle at pool index `i` has `pathIndex = i % n`; and every phase offset
lies in `[0, 10)`. -/
theorem particle_pools_spec (n : ℕ) (rv ra : ℕ → ℝ)
    (hv : ∀ k, 0 ≤ rv k ∧ rv k < 1) (ha : ∀ k, 0 ≤ ra k ∧ ra k < 1) :
    (vesicleParticles n rv).length = 2 * n ∧
    (antibodyParticles n ra).length = 8 * n ∧
    (∀ i, i < 2 * n → (vesicleParticles n rv)[i]? = some ⟨i % n, rv i * 10.0⟩) ∧
    (∀ i, i < 8 * n → (antibodyParticles n ra)[i]? = some ⟨i % n, ra i * 10.0⟩) ∧
    (∀ p ∈ vesicleParticles n rv, 0 ≤ p.offset ∧ p.offset < 10) ∧
    (∀ p ∈ antibodyParticles n ra, 0 ≤ p.offset ∧ p.offset < 10) := by
  refine ⟨by simp [vesicleParticles, Nat.mul_comm], by simp [antibodyParticles, Nat.mul_comm],
          fun i hi => ?_, fun i hi => ?_, fun p hp => ?_, fun p hp => ?_⟩
  · simp [vesicleParticles, Nat.mul_comm n 2, hi]
  · simp [antibodyParticles, Nat.mul_comm n 8, hi]
  · simp only [vesicleParticles, List.mem_map, List.mem_range] at hp
    obtain ⟨i, _, rfl⟩ := hp
    obtain ⟨hlo, hhi⟩ := hv i
    constructor
    · simp only
      positivity
    · simp only
      linarith
  · simp only [antibodyParticles, List.mem_map, List.mem_range] at hp
    obtain ⟨i, _, rfl⟩ := hp
    obtain ⟨hlo, hhi⟩ := ha i
    constructor
    · simp only
      positivity
    · simp only
      linarith

/-- Witness for `particle_pools_spec` at `n = 8` with all draws `1/2`. -/
theorem particle_pools_spec_witness :
    (vesicleParticles 8 (fun _ => 1 / 2)).length = 2 * 8 ∧
    (antibodyParticles 8 (fun _ => 1 / 2)).length = 8 * 8 :=
  ⟨(particle_pools_spec 8 (fun _ => 1 / 2) (fun _ => 1 / 2)
      (fun _ => by norm_num) (fun _ => by norm_num)).1,
   (particle_pools_spec 8 (fun _ => 1 / 2) (fun _ => 1 / 2)
      (fun _ => by norm_num) (fun _ => by norm_num)).2.1⟩

/-- `DIMENSIONS.NUCLEUS_OFFSET = [5.5, 0, 0]` (constants.ts). -/
noncomputable def NUCLEUS_OFFSET : Vec3 := ⟨5.5, 0, 0⟩

/-- `DIMENSIONS.NUCLEUS_RADIUS = 2.4` (constants.ts). -/
noncomputable def NUCLEUS_RADIUS : ℝ := 2.4

/-- The Euclidean distance from a point to the nucleus offset, as the
generator computes it:
`Math.sqrt(pow(x - off[0], 2) + pow(y - off[1], 2) + pow(z - off[2], 2))`. -/
noncomputable def distToNucleus (p : Vec3) : ℝ :=
  Real.sqrt ((p.x - NUCLEUS_OFFSET.x) ^ 2 + (p.y - NUCLEUS_OFFSET.y) ^ 2 +
             (p.z - NUCLEUS_OFFSET.z) ^ 2)

/-- One placed mitochondrion: position, Euler rotation and uniform scale. -/
structure MitoInstance where
  position : Vec3
  rotation : Vec3
  scale : ℝ

/-- The candidate position of loop iteration `i` in the detailed
`Mitochondria` generator (Organelles.tsx lines 811-815):
`x = (random() - 0.7) * 12`, `y = (random() - 0.5) * 5`,
`z = (random() - 0.5) * 5`. -/
noncomputable def mitoCandidate (rand : ℕ → ℕ → ℝ) (i : ℕ) : Vec3 :=
  ⟨(rand i 0 - 0.7) * 12, (rand i 1 - 0.5) * 5, (rand i 2 - 0.5) * 5⟩

/-- The detailed `Mitochondria` placement generator (Organelles.tsx lines
809-833): 25 candidate draws, accepted only when
`sqrt(y*y + z*z) < 5 && distToNuc > NUCLEUS_RADIUS + 0.5`. -/
noncomputable def mitochondriaInstances (rand : ℕ → ℕ → ℝ) : List MitoInstance :=
  (List.range 25).filterMap (fun i =>
    if Real.sqrt ((mitoCandidate rand i).y * (mitoCandidate rand i).y +
                  (mitoCandidate rand i).z * (mitoCandidate rand i).z) < 5 ∧
       distToNucleus (mitoCandidate rand i) > NUCLEUS_RADIUS + 0.5 then
      some ⟨mitoCandidate rand i,
            ⟨rand i 3 * Real.pi, rand i 4 * Real.pi, rand i 5 * 0.5⟩,
            0.7 + rand i 6 * 0.5⟩
    else none)

/-- The candidate position of loop iteration `i` in the simplified
`Mitochondria` generator (Organelles.tsx lines 1523-1541):
`x = (random() - 0.7) * 12`, `y = (random() - 0.5) * 6`,
`z = (random() - 0.5) * 6`. -/
noncomputable def mitoCandidateSimplified (rand : ℕ → ℕ → ℝ) (i : ℕ) : Vec3 :=
  ⟨(rand i 0 - 0.7) * 12, (rand i 1 - 0.5) * 6, (rand i 2 - 0.5) * 6⟩

/-- The simplified `Mitochondria` placement generator (Organelles.tsx lines
1523-1541): 35 candidate draws, accepted whenever `sqrt(y*y + z*z) < 6` —
it performs no nucleus-distance check at all. -/
noncomputable def mitochondriaInstancesSimplified (rand : ℕ → ℕ → ℝ) : List MitoInstance :=
  (List.range 35).filterMap (fun i =>
    if Real.sqrt ((mitoCandidateSimplified rand i).y * (mitoCandidateSimplified rand i).y +
                  (mitoCandidateSimplified rand i).z * (mitoCandidateSimplified rand i).z) < 6 then
      some ⟨mitoCandidateSimplified rand i,
            ⟨rand i 3 * Real.pi, rand i 4 * Real.pi, 0⟩,
            0.8 + rand i 5 * 0.4⟩
    else none)

/-- A draw sequence for the simplified generator whose first iteration
yields the accepted position `(3, 0, 0)`, inside the nucleus exclusion zone;
every draw lies in `[0, 1)` as `Math.random()` guarantees. -/
noncomputable def mitoBadRand : ℕ → ℕ → ℝ :=
  fun _ slot => if slot = 0 then 0.95 else 1 / 2

/-- The instance the simplified generator accepts from `mitoBadRand`'s first
iteration. -/
noncomputable def mitoBadInstance : MitoInstance :=
  ⟨⟨3, 0, 0⟩, ⟨Real.pi / 2, Real.pi / 2, 0⟩, 1⟩

/-- C7 counterexample: the simplified mitochondria generator (one of the two
generators the claim covers) accepts an instance at `(3, 0, 0)`, whose
distance `2.5` to the nucleus offset is below `NUCLEUS_RADIUS + 0.5 = 2.9`,
for a draw sequence entirely inside `[0, 1)`. -/
theorem mitochondria_simplified_inside_nucleus :
    mitoBadInstance ∈ mitochondriaInstancesSimplified mitoBadRand ∧
    distToNucleus mitoBadInstance.position < NUCLEUS_RADIUS + 0.5 ∧
    (∀ i s : ℕ, 0 ≤ mitoBadRand i s ∧ mitoBadRand i s < 1) := by
  have hcand : mitoCandidateSimplified mitoBadRand 0 = ⟨3, 0, 0⟩ := by
    unfold mitoCandidateSimplified mitoBadRand
    show Vec3.mk _ _ _ = _
    norm_num
  refine ⟨?_, ?_, fun i s => by unfold mitoBadRand; split <;> norm_num⟩
  · rw [mitochondriaInstancesSimplified, List.mem_filterMap]
    refine ⟨0, by simp, ?_⟩
    rw [hcand]
    rw [if_pos (by norm_num [Real.sqrt_zero])]
    unfold mitoBadRand mitoBadInstance
    norm_num
    ring
  · unfold mitoBadInstance distToNucleus NUCLEUS_OFFSET NUCLEUS_RADIUS
    rw [show ((3 : ℝ) - 5.5) ^ 2 + ((0 : ℝ) - 0) ^ 2 + ((0 : ℝ) - 0) ^ 2 = 2.5 ^ 2 by norm_num,
        Real.sqrt_sq (by norm_num : (0 : ℝ) ≤ 2.5)]
    norm_num

/-- C7 amended: every instance accepted by the detailed mitochondria
placement generator (the variant with the explicit nucleus-distance check)
lies strictly outside the sphere of radius `NUCLEUS_RADIUS + 0.5` centered
at the nucleus offset, for every outcome of the random draws. -/
theorem mitochondria_outside_nucleus (rand : ℕ → ℕ → ℝ) :
    ∀ inst ∈ mitochondriaInstances rand,
      distToNucleus inst.position > NUCLEUS_RADIUS + 0.5 := by
  intro inst hinst
  rw [mitochondriaInstances, List.mem_filterMap] at hinst
  obtain ⟨i, _, hf⟩ := hinst
  split at hf
  · obtain rfl := Option.some.inj hf
    next hcond => exact hcond.2
  · exact absurd hf (by simp)

/-- The all-`1/2` draw sequence: its first detailed-generator iteration is
accepted at `(-2.4, 0, 0)`. -/
noncomputable def mitoGoodRand : ℕ → ℕ → ℝ := fun _ _ => 1 / 2

/-- The instance the detailed generator accepts from `mitoGoodRand`'s first
iteration. -/
noncomputable def mitoGoodInstance : MitoInstance :=
  ⟨⟨-2.4, 0, 0⟩, ⟨Real.pi / 2, Real.pi / 2, 1 / 4⟩, 0.95⟩

/-- Witness for `mitochondria_outside_nucleus` on a concrete accepted
instance. -/
theorem mitochondria_outside_nucleus_witness :
    distToNucleus mitoGoodInstance.position > NUCLEUS_RADIUS + 0.5 := by
  refine mitochondria_outside_nucleus mitoGoodRand mitoGoodInstance ?_
  have hcand : mitoCandidate mitoGoodRand 0 = ⟨-2.4, 0, 0⟩ := by
    unfold mitoCandidate mitoGoodRand
    show Vec3.mk _ _ _ = _
    norm_num
  rw [mitochondriaInstances, List.mem_filterMap]
  refine ⟨0, by simp, ?_⟩
  rw [hcand]
  rw [if_pos ?hc]
  case hc =>
    constructor
    · norm_num [Real.sqrt_zero]
    · unfold distToNucleus NUCLEUS_OFFSET NUCLEUS_RADIUS
      rw [show ((-2.4 : ℝ) - 5.5) ^ 2 + ((0 : ℝ) - 0) ^ 2 + ((0 : ℝ) - 0) ^ 2 = 7.9 ^ 2 by norm_num,
          Real.sqrt_sq (by norm_num : (0 : ℝ) ≤ 7.9)]
      norm_num
  unfold mitoGoodRand mitoGoodInstance
  norm_num
  ring

/-! ### Per-organelle material parameters

Each organelle component of the detailed variant renders a fixed set of
materials whose `color`, `emissive`, `transparent` and `opacity` parameters
are functions of the component's local hover flag and the shared selection.
The lists below transcribe those parameters mesh by mesh (meshes repeated
with an identical material, such as the 12 chromatin tubes or the two
centriole barrels, are listed once). Materials whose source omits the
`emissive` parameter (or are `meshBasicMaterial`, which has none) carry the
renderer's default black `#000000`. -/

/-- One material's render-relevant parameters. -/
structure Material where
  color : String
  emissive : String
  transparent : Bool
  opacity : ℚ
  deriving DecidableEq, Repr

/-- The pair of outputs the fade rule controls. -/
def materialOT (m : Material) : ℚ × Bool := (m.opacity, m.transparent)

/-- `Nucleus` materials (envelope — whose `color` is hover-tinted —,
nucleoplasm, the two nucleoli, chromatin tubes). -/
def nucleusMaterials (h : Bool) (af : Option String) : List Material :=
  let f := useFadeLogic "Nucleus" af
  [⟨if h ∧ af = none then "#3d255e" else "#2E1A47", "#000000", true, f.opacity * 0.7⟩,
   ⟨"#3a2255", "#1a0a30", f.transparent, f.opacity * 0.85⟩,
   ⟨"#1a0830", "#0a0015", f.transparent, f.opacity⟩,
   ⟨"#1a0830", "#0a0015", f.transparent, f.opacity⟩,
   ⟨"#5533aa", "#220055", f.transparent, f.opacity * 0.8⟩]

/-- `Golgi` materials (cisternae, trans- and cis-face budding vesicles). -/
def golgiMaterials (h : Bool) (af : Option String) : List Material :=
  let f := useFadeLogic "Golgi" af
  [⟨"#FFD700", if h ∧ af = none then "#403000" else "#201500", f.transparent, f.opacity * 0.9⟩,
   ⟨"#ffdd55", if h ∧ af = none then "#302000" else "#151000", f.transparent, f.opacity * 0.85⟩,
   ⟨"#eecc44", if h ∧ af = none then "#302000" else "#151000", f.transparent, f.opacity * 0.85⟩]

/-- `Centrioles` materials (triplet cylinders, central hubs, PCM cloud). -/
def centriolesMaterials (h : Bool) (af : Option String) : List Material :=
  let f := useFadeLogic "Centrioles" af
  [⟨"#f472b6", if h ∧ af = none then "#602040" else "#200010", f.transparent, f.opacity⟩,
   ⟨"#cc88aa", "#401030", f.transparent, f.opacity * 0.7⟩,
   ⟨"#ffaacc", "#000000", true, f.opacity * 0.15⟩]

/-- `RER` materials (cisterna sheets, instanced surface ribosomes). -/
def rerMaterials (h : Bool) (af : Option String) : List Material :=
  let f := useFadeLogic "RER" af
  [⟨"#40E0D0", if h ∧ af = none then "#003333" else "#001515", f.transparent, f.opacity * 0.85⟩,
   ⟨"#2aa8a8", if h ∧ af = none then "#104040" else "#000000", f.transparent, f.opacity⟩]

/-- `Mitochondria` materials (outer membrane, inner membrane, cristae,
matrix glow) as rendered by each `Mitochondrion`, which receives the
parent's hover flag and fade outputs. -/
def mitochondriaMaterials (h : Bool) (af : Option String) : List Material :=
  let f := useFadeLogic "Mitochondria" af
  [⟨"#FF6347", if h ∧ af = none then "#401010" else "#150505", f.transparent, f.opacity * 0.85⟩,
   ⟨"#ff7766", "#301008", f.transparent, f.opacity * 0.7⟩,
   ⟨"#ff8877", "#401510", f.transparent, f.opacity * 0.9⟩,
   ⟨"#ffaa88", "#ff6644", true, f.opacity * 0.3⟩]

/-- `Lysosomes` material (instanced spheres). -/
def lysosomesMaterials (h : Bool) (af : Option String) : List Material :=
  let f := useFadeLogic "Lysosomes" af
  [⟨"#4ade80", if h ∧ af = none then "#104010" else "#000000", f.transparent, f.opacity⟩]

/-- `FreeRibosomes` material: a `meshBasicMaterial` (no emissive channel)
whose base `color` — not an emissive — is what the hover flag tints
(`color={hovered && !activeFeature ? '#ffffff' : COLORS.FREE_RIBOSOME}`,
Organelles.tsx line 946). -/
def freeRibosomesMaterial (h : Bool) (af : Option String) : Material :=
  let f := useFadeLogic "Ribosomes" af 0.6 true
  ⟨if h ∧ af = none then "#ffffff" else "#cbd5e1", "#000000", f.transparent, f.opacity⟩

/-- `FreeRibosomes` materials. -/
def freeRibosomesMaterials (h : Bool) (af : Option String) : List Material :=
  [freeRibosomesMaterial h af]

/-- `Microtubules` material (track cylinders). -/
def microtubulesMaterials (h : Bool) (af : Option String) : List Material :=
  let f := useFadeLogic "Microtubules" af 0.5 true
  [⟨"#475569", if h ∧ af = none then "#475569" else "#000000", true, f.opacity⟩]

/-- `Vesicles` materials (instanced spheres — whose emissive is `COLORS.GOLGI`
in both hover branches — and the basic-material cargo antibodies). -/
def vesiclesMaterials (h : Bool) (af : Option String) : List Material :=
  let f := useFadeLogic "Vesicles" af 0.8 true
  [⟨"#FFD700", if h ∧ af = none then "#FFD700" else "#FFD700", f.transparent, f.opacity⟩,
   ⟨"#fbbf24", "#000000", f.transparent, f.opacity⟩]

/-- `AntibodyStream` material (instanced Y-shapes). -/
def antibodyStreamMaterials (h : Bool) (af : Option String) : List Material :=
  let f := useFadeLogic "Antibodies" af 1 true
  [⟨"#fbbf24", "#fbbf24", f.transparent, f.opacity⟩]

/-- C9 counterexample: toggling `FreeRibosomes`' hover flag with no
selection active changes the material's base `color` (from the slate
`#cbd5e1` to white) while its emissive channel is unchanged — hover does not
change "only the material's emissive color". Opacity and transparency remain
identical. -/
theorem hover_changes_base_color :
    (freeRibosomesMaterial true none).color ≠ (freeRibosomesMaterial false none).color ∧
    (freeRibosomesMaterial true none).emissive = (freeRibosomesMaterial false none).emissive ∧
    (freeRibosomesMaterial true none).opacity = (freeRibosomesMaterial false none).opacity ∧
    (freeRibosomesMaterial true none).transparent = (freeRibosomesMaterial false none).transparent :=
  ⟨by decide, rfl, rfl, rfl⟩

/-- C9 amended: for every organelle component and every selection state,
toggling the hover flag changes at most the `color`/`emissive` channels of
its materials: the `opacity` and `transparent` outputs are identical whether
hovered is true or false. -/
theorem hover_preserves_opacity (h : Bool) (af : Option String) :
    (nucleusMaterials h af).map materialOT = (nucleusMaterials false af).map materialOT ∧
    (golgiMaterials h af).map materialOT = (golgiMaterials false af).map materialOT ∧
    (centriolesMaterials h af).map materialOT = (centriolesMaterials false af).map materialOT ∧
    (rerMaterials h af).map materialOT = (rerMaterials false af).map materialOT ∧
    (mitochondriaMaterials h af).map materialOT = (mitochondriaMaterials false af).map materialOT ∧
    (lysosomesMaterials h af).map materialOT = (lysosomesMaterials false af).map materialOT ∧
    (freeRibosomesMaterials h af).map materialOT = (freeRibosomesMaterials false af).map materialOT ∧
    (microtubulesMaterials h af).map materialOT = (microtubulesMaterials false af).map materialOT ∧
    (vesiclesMaterials h af).map materialOT = (vesiclesMaterials false af).map materialOT ∧
    (antibodyStreamMaterials h af).map materialOT = (antibodyStreamMaterials false af).map materialOT :=
  ⟨rfl, rfl, rfl, rfl, rfl, rfl, rfl, rfl, rfl, rfl⟩

/-- C10: every state reachable from the initial `null` selection through the
write paths (organelle clicks, background miss, explicit close) is either
`none` or `some n` for one of the ten fixed organelle names; no other string
and no multi-selection is reachable. -/
theorem selection_invariant (events : List SelectionEvent) :
    selectionAfter events = none ∨
    ∃ n ∈ organelleNames, selectionAfter events = some n := by
  suffices h : ∀ (s : Option String), (s = none ∨ ∃ n ∈ organelleNames, s = some n) →
      (events.foldl selectionStep s = none ∨
       ∃ n ∈ organelleNames, events.foldl selectionStep s = some n) from
    h none (Or.inl rfl)
  induction events with
  | nil => intro s hs; simpa using hs
  | cons e es ih =>
    intro s _
    refine ih (selectionStep s e) ?_
    cases e with
    | clickOrganelle i =>
      exact Or.inr ⟨organelleNames.get ⟨i.val, i.isLt⟩, List.get_mem _ _ _, rfl⟩
    | pointerMissed => exact Or.inl rfl
    | closePanel => exact Or.inl rfl

end PlasmaCell
